import Mathlib

/-!
Verification development for the `rusql-alchemy-macro` Model derive generator
(`src/lib.rs`, `model_derive` and `extract_inner_type`).

The generator is embedded shallowly: a model is an ordered list of named
fields, each carrying a (flattened) Rust type and the ordered list of
`#[model(name = literal)]` modifier pairs found on the field.  The
embedding follows the source loop one field at a time: per-field modifier
processing (`applyAttr`/`applyAttrs`), the column-type match (`baseType`),
the clause assembly and the create/update argument pushes (`processField`),
the fold over all fields (`runFields`) and the final artifact assembly
(`model_derive`).

Token streams built with `quote!` are modelled as the strings they print
to: adjacent token trees are separated by single spaces, except that no
space is printed between an identifier and a following parenthesized
group (`varchar(255)`, `clone()`) — a string literal before a group keeps
the space (`references "users" ("id")`).  An interpolated Rust
`String`/`&str` prints as a double-quoted string literal with `\` and `"`
escaped (string values containing control characters are outside the
modelled domain), and the empty token stream is `Option.none`.  The final
`replace('"', "")` on the schema text is `removeQuotes`, and the
`.replace(".clone()", "")` on `quote! { #field_name.clone() }` leaves just
the field name, which the embedding tracks directly (`pkScan`).
-/

set_option autoImplicit false
set_option maxRecDepth 8000

namespace RusqlMacro

/-- A literal attached to a `#[model(key = lit)]` name/value modifier
(`syn::Lit`).  `other` stands for the literal kinds the generator never
inspects (float, char, byte-string, ...). -/
inductive Lit where
  | str (s : String)
  | bool (b : Bool)
  | int (n : Nat)
  | other
deriving DecidableEq, Repr

/-- The slice of `syn::Type` the generator consults: for a `Type::Path` only
the last segment's identifier and the first angle-bracketed type argument
(if any) are ever read; every non-path type is `other`. -/
inductive RustType where
  | pathNoArgs (seg : String)
  | pathArg (seg : String) (first : RustType)
  | other
deriving DecidableEq, Repr

/-- One named struct field: its identifier, its declared type, and the
ordered name/value pairs taken from its `#[model(...)]` attributes. -/
structure Field where
  name : String
  ty : RustType
  attrs : List (String × Lit)
deriving DecidableEq, Repr

/-- A derive input: the struct identifier and its named fields in
declaration order. -/
structure Model where
  name : String
  fields : List Field
deriving DecidableEq, Repr

/-- The generation-time panics of `model_derive`/`extract_inner_type`. -/
inductive GenError where
  /-- panic "Unsupported field type" (a non-path `syn::Type`). -/
  | unsupportedTypeShape
  /-- panic "Unexpected field type: ..." (type name not one of the eight). -/
  | unsupportedFieldType
  /-- panic "'now' is work only with Date or DateTime". -/
  | invalidDefaultForType
  /-- panic "Invalid foreign key". -/
  | invalidForeignKey
deriving DecidableEq, Repr

/-- The artifacts the derive emits for one model: the `SCHEMA` constant, the
`PK` constant, the field lists spliced into `save`/`update`, the delete
query text and the values bound to it. -/
structure Artifacts where
  schema : String
  pk : String
  create_args : List String
  update_args : List String
  delete_stmt : String
  delete_binds : List String
deriving DecidableEq, Repr

/-- `extract_inner_type` from the source: recursively unwraps `Option<...>`
through its first generic argument and returns the last segment's name;
`none` models the panic on a non-path type. -/
def extract_inner_type : RustType → Option String
  | RustType.pathNoArgs seg => some seg
  | RustType.pathArg seg inner =>
      if seg = "Option" then extract_inner_type inner else some seg
  | RustType.other => none

/-- The `is_nullable` test from the source: the outermost type is a path
whose last segment is literally `Option`. -/
def isNullable : RustType → Bool
  | RustType.pathNoArgs seg => seg == "Option"
  | RustType.pathArg seg _ => seg == "Option"
  | RustType.other => false

/-- Printing of one character inside a Rust string literal (`{:?}` on
`str`): backslash and double quote are escaped, everything else prints
as itself. -/
def escapeChar (c : Char) : String :=
  if c = '\\' then "\\\\" else if c = '"' then "\\\"" else String.singleton c

/-- Printing of a Rust string value inside a string literal. -/
def escapeStr (s : String) : String :=
  String.join (s.data.map escapeChar)

/-- The token a `quote!`-interpolated `String`/`&str` prints as: a
double-quoted, escaped string literal. -/
def strLit (s : String) : String :=
  "\"" ++ escapeStr s ++ "\""

/-- Splitting of a character list at every `'.'`, keeping empty pieces —
the behaviour of Rust's `str::split('.')`. -/
def splitDotAux : List Char → List (List Char)
  | [] => [[]]
  | c :: rest =>
      if c = '.' then [] :: splitDotAux rest
      else
        match splitDotAux rest with
        | [] => [[c]]
        | p :: ps => (c :: p) :: ps

/-- The piece list of `fk.split('.').collect::<Vec<&str>>()`. -/
def splitDot (s : String) : List String :=
  (splitDotAux s.data).map String.mk

/-- Printing of a sequence of sub-token-streams separated by spaces; empty
streams (`none`) vanish. -/
def joinParts (parts : List (Option String)) : String :=
  String.intercalate " " (parts.filterMap id)

/-- The per-field flags and fragments accumulated by the modifier loop
(lines 30-36 of the source). -/
structure FieldConfig where
  is_primary_key : Bool
  is_auto : Bool
  is_unique : Bool
  is_default : Bool
  size : Option Nat
  default : Option String
  foreign_key : Option String
deriving DecidableEq, Repr

/-- The initial per-field state: all flags false, all fragments empty. -/
def initCfg : FieldConfig :=
  { is_primary_key := false, is_auto := false, is_unique := false,
    is_default := false, size := none, default := none, foreign_key := none }

/-- One iteration of the modifier loop (the `if nv.path.is_ident(...)`
chain, lines 55-110 of the source).  A modifier whose literal has the wrong
kind is silently ignored, exactly as the `if let` patterns do. -/
def applyAttr (ftype : String) (cfg : FieldConfig) (a : String × Lit) :
    Except GenError FieldConfig :=
  if a.1 = "primary_key" then
    match a.2 with
    | Lit.bool b => Except.ok { cfg with is_primary_key := b }
    | _ => Except.ok cfg
  else if a.1 = "auto" then
    match a.2 with
    | Lit.bool b => Except.ok { cfg with is_auto := b }
    | _ => Except.ok cfg
  else if a.1 = "size" then
    match a.2 with
    | Lit.int n => Except.ok { cfg with size := some n }
    | _ => Except.ok cfg
  else if a.1 = "unique" then
    match a.2 with
    | Lit.bool b => Except.ok { cfg with is_unique := b }
    | _ => Except.ok cfg
  else if a.1 = "default" then
    match a.2 with
    | Lit.str s =>
        if s = "now" then
          if ftype = "Date" then
            Except.ok { cfg with is_default := true,
                                 default := some "default current_date" }
          else if ftype = "DateTime" then
            Except.ok { cfg with is_default := true,
                                 default := some "default current_timestamp" }
          else Except.error GenError.invalidDefaultForType
        else
          Except.ok { cfg with is_default := true,
                               default := some ("default " ++ strLit ("'" ++ s ++ "'")) }
    | Lit.bool b =>
        Except.ok { cfg with is_default := true,
                             default := some (if b then "default 1" else "default 0") }
    | Lit.int n =>
        Except.ok { cfg with is_default := true,
                             default := some ("default " ++ toString n) }
    | Lit.other => Except.ok { cfg with is_default := true }
  else if a.1 = "foreign_key" then
    match a.2 with
    | Lit.str s =>
        match splitDot s with
        | [t, c] =>
            let fk := "references " ++ strLit t ++ " (" ++ strLit c ++ ")"
            Except.ok { cfg with foreign_key := some fk }
        | _ => Except.error GenError.invalidForeignKey
    | _ => Except.ok cfg
  else Except.ok cfg

/-- The whole modifier loop over one field's `#[model(...)]` pairs. -/
def applyAttrs (ftype : String) (cfg : FieldConfig) :
    List (String × Lit) → Except GenError FieldConfig
  | [] => Except.ok cfg
  | a :: rest =>
      match applyAttr ftype cfg a with
      | Except.ok cfg' => applyAttrs ftype cfg' rest
      | Except.error e => Except.error e

/-- Test for a `primary_key = <bool literal>` modifier pair, the condition
under which line 57 of the source overwrites `the_primary_key`. -/
def isPkBoolAttr (a : String × Lit) : Bool :=
  a.1 == "primary_key" &&
    (match a.2 with
     | Lit.bool _ => true
     | _ => false)

/-- The `the_primary_key` assignment tracked alongside the modifier loop:
every `primary_key = <bool>` pair (whatever its value) overwrites the
model-wide primary-key name with this field's name. -/
def pkScan (fieldName : String) (cur : String) : List (String × Lit) → String
  | [] => cur
  | a :: rest =>
      if isPkBoolAttr a then pkScan fieldName fieldName rest
      else pkScan fieldName cur rest

/-- The base-type match (lines 118-137 of the source). -/
def baseType (ftype : String) (size : Option Nat) : Except GenError String :=
  if ftype = "Serial" then Except.ok "serial"
  else if ftype = "Integer" then Except.ok "integer"
  else if ftype = "String" then
    Except.ok (match size with
      | some n => "varchar(" ++ toString n ++ ")"
      | none => "varchar(255)")
  else if ftype = "Float" then Except.ok "float"
  else if ftype = "Text" then Except.ok "text"
  else if ftype = "Date" then Except.ok "varchar(10)"
  else if ftype = "Boolean" then Except.ok "integer"
  else if ftype = "DateTime" then Except.ok "varchar(40)"
  else Except.error GenError.unsupportedFieldType

/-- Everything the loop body derives from one field alone: the extracted
type name, the modifier results, the rendered base type and nullability. -/
structure FieldData where
  ftype : String
  cfg : FieldConfig
  base : String
  nullable : Bool
deriving DecidableEq, Repr

/-- The failing-or-not field-local part of one loop iteration: type
extraction, modifier processing, base-type rendering. -/
def fieldData (f : Field) : Except GenError FieldData :=
  match extract_inner_type f.ty with
  | none => Except.error GenError.unsupportedTypeShape
  | some ftype =>
      match applyAttrs ftype initCfg f.attrs with
      | Except.error e => Except.error e
      | Except.ok cfg =>
          match baseType ftype cfg.size with
          | Except.error e => Except.error e
          | Except.ok base =>
              Except.ok { ftype := ftype, cfg := cfg, base := base,
                          nullable := isNullable f.ty }

/-- The printed column clause
`#field_name #base_type #primary_key #unique #default #nullable
#foreign_key` (line 170 of the source). -/
def renderClause (fieldName : String) (d : FieldData) : String :=
  joinParts [some fieldName, some d.base,
    (if d.cfg.is_primary_key then
       some (if d.cfg.is_auto then "primary key autoincrement" else "primary key")
     else none),
    (if d.cfg.is_unique then some "unique" else none),
    d.cfg.default,
    (if d.nullable then none else some "not null"),
    d.cfg.foreign_key]

/-- The mutable state threaded through the field loop. -/
structure GenState where
  schema_fields : List String
  create_args : List String
  update_args : List String
  pk : String
deriving DecidableEq, Repr

/-- The empty state the loop starts from. -/
def initState : GenState :=
  { schema_fields := [], create_args := [], update_args := [], pk := "" }

/-- One full iteration of the field loop: on success it appends the clause,
performs the create/update pushes of lines 139-153, the blind
`create_args.pop()` of lines 155-157, and the `the_primary_key`
overwrite. -/
def processField (st : GenState) (f : Field) : Except GenError GenState :=
  match fieldData f with
  | Except.error e => Except.error e
  | Except.ok d =>
      let pushed :=
        if d.cfg.is_primary_key then
          if d.cfg.is_auto then (st.create_args, st.update_args)
          else if d.ftype = "Serial" then (st.create_args, st.update_args)
          else (st.create_args ++ [f.name], st.update_args)
        else (st.create_args ++ [f.name], st.update_args ++ [f.name])
      let create2 := if d.cfg.is_default then pushed.1.dropLast else pushed.1
      Except.ok { schema_fields := st.schema_fields ++ [renderClause f.name d],
                  create_args := create2,
                  update_args := pushed.2,
                  pk := pkScan f.name st.pk f.attrs }

/-- The field loop itself; the first panic aborts the whole generation. -/
def runFields (st : GenState) : List Field → Except GenError GenState
  | [] => Except.ok st
  | f :: fs =>
      match processField st f with
      | Except.ok st' => runFields st' fs
      | Except.error e => Except.error e

/-- Deletion of every double-quote character, the
`.replace('"', "")` applied to the assembled schema text. -/
def removeQuotes (s : String) : String :=
  String.mk (s.data.filter (fun c => c ≠ '"'))

/-- The whole derive: run the field loop, then assemble the `SCHEMA` text,
the `PK` constant, the argument lists and the delete statement exactly as
lines 176-235 of the source do. -/
def model_derive (m : Model) : Except GenError Artifacts :=
  match runFields initState m.fields with
  | Except.error e => Except.error e
  | Except.ok st =>
      Except.ok
        { schema := removeQuotes ("create table if not exists " ++ m.name ++
            " (" ++ String.intercalate ", " st.schema_fields ++ ");"),
          pk := st.pk,
          create_args := st.create_args,
          update_args := st.update_args,
          delete_stmt := "delete from " ++ m.name ++ " where " ++ st.pk ++ "=?1;",
          delete_binds := [st.pk] }

/-- Final value of the per-field `is_primary_key` flag after one modifier
pair: a `primary_key = <bool>` overwrites it, anything else keeps it. -/
def stepPk (b : Bool) (a : String × Lit) : Bool :=
  if a.1 = "primary_key" then
    match a.2 with
    | Lit.bool v => v
    | _ => b
  else b

/-- Final value of the per-field `is_auto` flag after one modifier pair. -/
def stepAuto (b : Bool) (a : String × Lit) : Bool :=
  if a.1 = "auto" then
    match a.2 with
    | Lit.bool v => v
    | _ => b
  else b

/-- The descriptor-level primary-key flag of a field: the last
`primary_key = <bool>` modifier wins, absent means `false`. -/
def isPrimaryKeyOf (f : Field) : Bool :=
  f.attrs.foldl stepPk false

/-- The descriptor-level auto flag of a field. -/
def isAutoOf (f : Field) : Bool :=
  f.attrs.foldl stepAuto false

/-- Whether the field carries any `default = ...` modifier (any literal
kind sets `is_default`). -/
def hasDefaultOf (f : Field) : Bool :=
  f.attrs.any (fun a => a.1 == "default")

/-- Whether the field carries a `primary_key = <bool>` modifier at all. -/
def hasPkAttrOf (f : Field) : Bool :=
  f.attrs.any isPkBoolAttr

/-- The semantic type name the Extractor derives for the field. -/
def semTypeOf (f : Field) : Option String :=
  extract_inner_type f.ty

/-- A database-generated primary key: primary-key flag set and either the
auto flag set or the semantic type `Serial` — the cases in which the create
argument push is skipped. -/
def dbGenPkOf (f : Field) : Bool :=
  isPrimaryKeyOf f && (isAutoOf f || decide (semTypeOf f = some "Serial"))

/-- Effect of one field on the model-wide primary-key name. -/
def pkStep (f : Field) (pk : String) : String :=
  if hasPkAttrOf f then f.name else pk

/-- Effect of one field on `update_args`. -/
def updateStep (f : Field) (u : List String) : List String :=
  if isPrimaryKeyOf f then u else u ++ [f.name]

/-- Effect of one field on `create_args`: a push unless the field is a
database-generated primary key, then a blind pop when the field has a
default. -/
def createStep (f : Field) (c : List String) : List String :=
  let c1 := if dbGenPkOf f then c else c ++ [f.name]
  if hasDefaultOf f then c1.dropLast else c1

/-- The primary-key name the generator actually ends with: the name of the
last field in declaration order carrying a `primary_key = <bool>` modifier,
or the empty string if there is none. -/
def lastPkAttrName (m : Model) : String :=
  m.fields.foldl (fun pk f => pkStep f pk) ""

/-- The clause list of a model, one rendered column clause per field in
declaration order. -/
def clausesOf : List Field → Except GenError (List String)
  | [] => Except.ok []
  | f :: fs =>
      match fieldData f with
      | Except.error e => Except.error e
      | Except.ok d =>
          match clausesOf fs with
          | Except.error e => Except.error e
          | Except.ok cs => Except.ok (renderClause f.name d :: cs)

/-- The eight supported semantic type names. -/
def supportedTypes : List String :=
  ["Serial", "Integer", "String", "Float", "Text", "Date", "Boolean", "DateTime"]

/-- Modelled from the spec: the primary-key identity as the specification
states it — the name of the first field in declaration order whose
descriptor-level primary-key flag is true, or the empty string when no
field is marked primary key. -/
def specFirstPrimaryKey (m : Model) : String :=
  match m.fields.find? (fun f => isPrimaryKeyOf f) with
  | some f => f.name
  | none => ""

/-- Modelled from the spec: the create-argument list the claim describes —
every field that declares no default and is not a database-generated
primary key, once, in declaration order. -/
def specCreateArgs (m : Model) : List String :=
  (m.fields.filter (fun f => !dbGenPkOf f && !hasDefaultOf f)).map Field.name

/-- The update-argument list: every field that is not the primary key, in
declaration order. -/
def specUpdateArgs (m : Model) : List String :=
  (m.fields.filter (fun f => !isPrimaryKeyOf f)).map Field.name

/-- The `User` example model of the specification: `id: Serial` primary key
auto, `name: String` size 50 unique, `email: Option<String>`,
`created_at: DateTime` default "now". -/
def userModel : Model :=
  { name := "User",
    fields :=
      [ { name := "id", ty := RustType.pathNoArgs "Serial",
          attrs := [("primary_key", Lit.bool true), ("auto", Lit.bool true)] },
        { name := "name", ty := RustType.pathNoArgs "String",
          attrs := [("size", Lit.int 50), ("unique", Lit.bool true)] },
        { name := "email", ty := RustType.pathArg "Option" (RustType.pathNoArgs "String"),
          attrs := [] },
        { name := "created_at", ty := RustType.pathNoArgs "DateTime",
          attrs := [("default", Lit.str "now")] } ] }

/-- One modifier pair moves the three claim-relevant flags exactly as the
`stepPk`/`stepAuto` folds and the presence test for `default` predict. -/
theorem applyAttr_flags (ftype : String) (cfg c1 : FieldConfig) (a : String × Lit)
    (h : applyAttr ftype cfg a = Except.ok c1) :
    c1.is_primary_key = stepPk cfg.is_primary_key a ∧
    c1.is_auto = stepAuto cfg.is_auto a ∧
    c1.is_default = (cfg.is_default || a.1 == "default") := by
  obtain ⟨n, l⟩ := a
  cases l <;>
    simp only [applyAttr, stepPk, stepAuto] at h ⊢ <;>
    split_ifs at h ⊢ <;>
    (try split at h) <;>
    (try simp_all)
  all_goals subst h
  all_goals simp_all

/-- On success, the whole modifier loop leaves the three claim-relevant
flags at the values of the corresponding pure folds over the modifier
list. -/
theorem applyAttrs_flags :
    ∀ (attrs : List (String × Lit)) (ftype : String) (cfg cfg' : FieldConfig),
    applyAttrs ftype cfg attrs = Except.ok cfg' →
    cfg'.is_primary_key = attrs.foldl stepPk cfg.is_primary_key ∧
    cfg'.is_auto = attrs.foldl stepAuto cfg.is_auto ∧
    cfg'.is_default = (cfg.is_default || attrs.any (fun a => a.1 == "default")) := by
  intro attrs
  induction attrs with
  | nil =>
      intro ftype cfg cfg' h
      simp only [applyAttrs] at h
      cases h
      simp
  | cons a rest ih =>
      intro ftype cfg cfg' h
      simp only [applyAttrs] at h
      cases hA : applyAttr ftype cfg a with
      | error e => rw [hA] at h; cases h
      | ok c1 =>
          rw [hA] at h
          obtain ⟨h1, h2, h3⟩ := ih ftype c1 cfg' h
          obtain ⟨g1, g2, g3⟩ := applyAttr_flags ftype cfg c1 a hA
          refine ⟨?_, ?_, ?_⟩
          · rw [h1, g1, List.foldl_cons]
          · rw [h2, g2, List.foldl_cons]
          · rw [h3, g3, List.any_cons]
            cases cfg.is_default <;> simp [Bool.or_assoc]

/-- The `the_primary_key` scan of one field sets the model-wide name to the
field's name exactly when the field carries a `primary_key = <bool>`
modifier. -/
theorem pkScan_eq (fieldName : String) :
    ∀ (attrs : List (String × Lit)) (cur : String),
    pkScan fieldName cur attrs = if attrs.any isPkBoolAttr then fieldName else cur := by
  intro attrs
  induction attrs with
  | nil => intro cur; simp [pkScan]
  | cons a rest ih =>
      intro cur
      rw [pkScan, List.any_cons]
      cases hb : isPkBoolAttr a with
      | true => simp [ih]
      | false => rw [Bool.false_or, ih cur]; simp

/-- On success, the field-local data carries exactly the descriptor-level
flags and the extracted semantic type of the field. -/
theorem fieldData_flags (f : Field) (d : FieldData)
    (h : fieldData f = Except.ok d) :
    d.cfg.is_primary_key = isPrimaryKeyOf f ∧
    d.cfg.is_auto = isAutoOf f ∧
    d.cfg.is_default = hasDefaultOf f ∧
    semTypeOf f = some d.ftype := by
  cases hE : extract_inner_type f.ty with
  | none => simp [fieldData, hE] at h
  | some ftype =>
      simp only [fieldData, hE] at h
      cases hA : applyAttrs ftype initCfg f.attrs with
      | error e => simp [hA] at h
      | ok cfg =>
          simp only [hA] at h
          cases hB : baseType ftype cfg.size with
          | error e => simp [hB] at h
          | ok base =>
              simp only [hB, Except.ok.injEq] at h
              subst h
              obtain ⟨g1, g2, g3⟩ := applyAttrs_flags f.attrs ftype initCfg cfg hA
              exact ⟨by simpa [initCfg, isPrimaryKeyOf] using g1,
                     by simpa [initCfg, isAutoOf] using g2,
                     by simpa [initCfg, hasDefaultOf] using g3,
                     by simp [semTypeOf, hE]⟩

/-- A successful loop iteration appends exactly one rendered clause and
moves the three state components by the pure per-field steps. -/
theorem processField_ok_char (st st' : GenState) (f : Field)
    (h : processField st f = Except.ok st') :
    ∃ d, fieldData f = Except.ok d ∧
      st'.schema_fields = st.schema_fields ++ [renderClause f.name d] ∧
      st'.create_args = createStep f st.create_args ∧
      st'.update_args = updateStep f st.update_args ∧
      st'.pk = pkStep f st.pk := by
  cases hd : fieldData f with
  | error e => simp [processField, hd] at h
  | ok d =>
      refine ⟨d, rfl, ?_⟩
      simp only [processField, hd, Except.ok.injEq] at h
      subst h
      obtain ⟨g1, g2, g3, g4⟩ := fieldData_flags f d hd
      have hpk : pkScan f.name st.pk f.attrs = pkStep f st.pk := by
        rw [pkScan_eq, pkStep, hasPkAttrOf]
      have hdb : dbGenPkOf f =
          (d.cfg.is_primary_key &&
            (d.cfg.is_auto || decide (d.ftype = "Serial"))) := by
        rw [dbGenPkOf, g1, g2, g4]
        simp
      refine ⟨rfl, ?_, ?_, hpk⟩
      · rw [createStep, hdb]
        cases hp : d.cfg.is_primary_key <;>
          cases ha : d.cfg.is_auto <;>
          by_cases hs : d.ftype = "Serial" <;>
          cases hde : d.cfg.is_default <;>
          simp [hp, ha, hs, hde, ← g3]
      · rw [updateStep, ← g1]
        cases hp : d.cfg.is_primary_key <;>
          cases ha : d.cfg.is_auto <;>
          by_cases hs : d.ftype = "Serial" <;>
          simp [hp, ha, hs]

/-- A loop iteration fails exactly when the field-local computation fails,
with the same panic; the threaded state is irrelevant to failure. -/
theorem processField_error_iff (st : GenState) (f : Field) (e : GenError) :
    processField st f = Except.error e ↔ fieldData f = Except.error e := by
  cases hd : fieldData f <;> simp [processField, hd]

/-- On success the loop leaves the primary-key name, the update list and
the create list at the pure folds of the per-field steps. -/
theorem runFields_ok_char :
    ∀ (fs : List Field) (st st' : GenState),
    runFields st fs = Except.ok st' →
    st'.pk = fs.foldl (fun pk f => pkStep f pk) st.pk ∧
    st'.update_args = fs.foldl (fun u f => updateStep f u) st.update_args ∧
    st'.create_args = fs.foldl (fun c f => createStep f c) st.create_args := by
  intro fs
  induction fs with
  | nil =>
      intro st st' h
      simp only [runFields] at h
      cases h
      simp
  | cons f rest ih =>
      intro st st' h
      simp only [runFields] at h
      cases hp : processField st f with
      | error e => rw [hp] at h; cases h
      | ok st1 =>
          rw [hp] at h
          obtain ⟨d, _, _, hc, hu, hpk⟩ := processField_ok_char st st1 f hp
          obtain ⟨i1, i2, i3⟩ := ih st1 st' h
          refine ⟨?_, ?_, ?_⟩ <;>
            simp [List.foldl_cons, i1, i2, i3, hc, hu, hpk]

/-- On success the loop appends exactly the clause list of the fields, one
clause per field. -/
theorem runFields_clauses :
    ∀ (fs : List Field) (st st' : GenState),
    runFields st fs = Except.ok st' →
    ∃ cs, clausesOf fs = Except.ok cs ∧
      st'.schema_fields = st.schema_fields ++ cs ∧ cs.length = fs.length := by
  intro fs
  induction fs with
  | nil =>
      intro st st' h
      simp only [runFields] at h
      cases h
      exact ⟨[], rfl, by simp, rfl⟩
  | cons f rest ih =>
      intro st st' h
      simp only [runFields] at h
      cases hp : processField st f with
      | error e => rw [hp] at h; cases h
      | ok st1 =>
          rw [hp] at h
          obtain ⟨d, hd, hsch, _, _, _⟩ := processField_ok_char st st1 f hp
          obtain ⟨cs, hcs, hsch', hlen⟩ := ih st1 st' h
          refine ⟨renderClause f.name d :: cs, ?_, ?_, by simp [hlen]⟩
          · simp [clausesOf, hd, hcs]
          · rw [hsch', hsch, List.append_assoc]
            rfl

/-- A field whose local computation panics makes the whole loop fail, with
some panic. -/
theorem runFields_error_of_mem :
    ∀ (fs : List Field) (st : GenState) (f : Field) (e : GenError),
    f ∈ fs → fieldData f = Except.error e →
    ∃ e', runFields st fs = Except.error e' := by
  intro fs
  induction fs with
  | nil => intro st f e hmem; cases hmem
  | cons g rest ih =>
      intro st f e hmem hf
      cases hp : processField st g with
      | error e' => exact ⟨e', by simp [runFields, hp]⟩
      | ok st1 =>
          rcases List.mem_cons.mp hmem with hfg | hmem'
          · subst hfg
            rw [(processField_error_iff st f e).mpr hf] at hp
            cases hp
          · obtain ⟨e', he'⟩ := ih st1 f e hmem' hf
            exact ⟨e', by simp [runFields, hp, he']⟩

/-- Full description of a successful derive: the schema is assembled from
the clause list, the primary-key name is the last-overwrite fold, the two
argument lists are the folds of their per-field steps, and the delete
statement and its binds come from the primary-key name. -/
theorem model_derive_char (m : Model) (a : Artifacts)
    (h : model_derive m = Except.ok a) :
    ∃ cs, clausesOf m.fields = Except.ok cs ∧ cs.length = m.fields.length ∧
      a.schema = removeQuotes ("create table if not exists " ++ m.name ++
        " (" ++ String.intercalate ", " cs ++ ");") ∧
      a.pk = lastPkAttrName m ∧
      a.update_args = m.fields.foldl (fun u f => updateStep f u) [] ∧
      a.create_args = m.fields.foldl (fun c f => createStep f c) [] ∧
      a.delete_stmt = "delete from " ++ m.name ++ " where " ++ a.pk ++ "=?1;" ∧
      a.delete_binds = [a.pk] := by
  cases hr : runFields initState m.fields with
  | error e => simp [model_derive, hr] at h
  | ok st =>
      simp only [model_derive, hr, Except.ok.injEq] at h
      subst h
      obtain ⟨hpk, hu, hc⟩ := runFields_ok_char m.fields initState st hr
      obtain ⟨cs, hcs, hsch, hlen⟩ := runFields_clauses m.fields initState st hr
      refine ⟨cs, hcs, hlen, ?_, ?_, ?_, ?_, rfl, rfl⟩
      · rw [hsch]; rfl
      · rw [hpk]; rfl
      · rw [hu]; rfl
      · rw [hc]; rfl

/-- The update-argument fold appends the names of the non-primary-key
fields, in order. -/
theorem foldl_updateStep :
    ∀ (fs : List Field) (u : List String),
    fs.foldl (fun u f => updateStep f u) u =
      u ++ (fs.filter (fun f => !isPrimaryKeyOf f)).map Field.name := by
  intro fs
  induction fs with
  | nil => intro u; simp
  | cons f rest ih =>
      intro u
      rw [List.foldl_cons, ih, updateStep]
      cases hp : isPrimaryKeyOf f <;> simp [hp, List.filter_cons]

/-- As long as no database-generated primary key carries a default, the
create-argument fold appends exactly the names of the fields that are
neither database-generated primary keys nor defaulted, in order. -/
theorem foldl_createStep_of :
    ∀ (fs : List Field),
    (∀ f ∈ fs, dbGenPkOf f = true → hasDefaultOf f = false) →
    ∀ (c : List String),
    fs.foldl (fun c f => createStep f c) c =
      c ++ (fs.filter (fun f => !dbGenPkOf f && !hasDefaultOf f)).map Field.name := by
  intro fs
  induction fs with
  | nil => intro _ c; simp
  | cons f rest ih =>
      intro hyp c
      have hrest : ∀ g ∈ rest, dbGenPkOf g = true → hasDefaultOf g = false :=
        fun g hg => hyp g (List.mem_cons_of_mem f hg)
      rw [List.foldl_cons, ih hrest, createStep]
      cases hdb : dbGenPkOf f with
      | true =>
          have hnd : hasDefaultOf f = false := hyp f (List.mem_cons_self f rest) hdb
          simp [hdb, hnd, List.filter_cons]
      | false =>
          cases hnd : hasDefaultOf f <;>
            simp [hdb, hnd, List.filter_cons, List.dropLast_concat]

/-- A type name outside the supported eight always makes the base-type
match panic. -/
theorem baseType_unsupported (t : String) (h : t ∉ supportedTypes) :
    ∀ sz, baseType t sz = Except.error GenError.unsupportedFieldType := by
  intro sz
  simp only [supportedTypes, List.mem_cons, List.not_mem_nil, or_false, not_or] at h
  obtain ⟨h1, h2, h3, h4, h5, h6, h7, h8⟩ := h
  simp [baseType, h1, h2, h3, h4, h5, h6, h7, h8]

/-- A field whose extracted semantic type is unsupported makes the
field-local computation panic (with the unsupported-type panic unless a
modifier panics first). -/
theorem fieldData_error_of_unsupported (f : Field) (t : String)
    (hE : semTypeOf f = some t) (hT : t ∉ supportedTypes) :
    ∃ e, fieldData f = Except.error e := by
  rw [semTypeOf] at hE
  cases hA : applyAttrs t initCfg f.attrs with
  | error e => exact ⟨e, by simp [fieldData, hE, hA]⟩
  | ok cfg =>
      exact ⟨GenError.unsupportedFieldType,
        by simp [fieldData, hE, hA, baseType_unsupported t hT]⟩

/-- A failing field makes the whole derive fail. -/
theorem model_derive_error_of_field (m : Model) (f : Field) (e : GenError)
    (hmem : f ∈ m.fields) (hf : fieldData f = Except.error e) :
    ∃ e', model_derive m = Except.error e' := by
  obtain ⟨e', he'⟩ := runFields_error_of_mem m.fields initState f e hmem hf
  exact ⟨e', by simp [model_derive, he']⟩

/-- Two-field model whose first field is marked `primary_key = true` and
whose second carries `primary_key = false`: the second modifier still
overwrites `the_primary_key`. -/
def mC1 : Model :=
  { name := "P",
    fields :=
      [ { name := "a", ty := RustType.pathNoArgs "Integer",
          attrs := [("primary_key", Lit.bool true)] },
        { name := "b", ty := RustType.pathNoArgs "Integer",
          attrs := [("primary_key", Lit.bool false)] } ] }

/-- The artifacts `model_derive` produces for `mC1`. -/
def artC1 : Artifacts :=
  { schema := "create table if not exists P (a integer primary key not null, b integer not null);",
    pk := "b",
    create_args := ["a", "b"],
    update_args := ["b"],
    delete_stmt := "delete from P where b=?1;",
    delete_binds := ["b"] }

/-- Claim C1, counterexample: on `mC1` the generated primary-key identity
is "b" — the last field carrying any `primary_key = <bool>` modifier —
while the first field whose primary-key flag is true is "a", so the
identity is not the first-true field (and a model whose only `primary_key`
modifier is `false` would likewise get that field's name instead of the
empty string). -/
theorem claim_C1_counterexample :
    (model_derive mC1).toOption.map Artifacts.pk ≠ some (specFirstPrimaryKey mC1) := by
  decide

/-- Claim C1, amended: the primary-key identity artifact is the name of the
last field in declaration order carrying a `primary_key = <bool literal>`
modifier, whatever the literal's value; if no field carries such a
modifier, the identity is the empty string. -/
theorem claim_C1_pk_identity (m : Model) (a : Artifacts)
    (h : model_derive m = Except.ok a) :
    a.pk = lastPkAttrName m := by
  obtain ⟨cs, _, _, _, hpk, _⟩ := model_derive_char m a h
  exact hpk

/-- Witness for claim C1 at the concrete model `mC1`. -/
theorem claim_C1_witness :
    model_derive mC1 = Except.ok artC1 ∧ artC1.pk = lastPkAttrName mC1 :=
  ⟨rfl, claim_C1_pk_identity mC1 artC1 rfl⟩

/-- Two-field model whose second field is an auto primary key with a
`default` modifier: the blind `create_args.pop()` removes the entry pushed
for the first field. -/
def mC2 : Model :=
  { name := "T",
    fields :=
      [ { name := "a", ty := RustType.pathNoArgs "Integer", attrs := [] },
        { name := "b", ty := RustType.pathNoArgs "Integer",
          attrs := [("primary_key", Lit.bool true), ("auto", Lit.bool true),
                    ("default", Lit.int 5)] } ] }

/-- Claim C2, counterexample: on `mC2` the claim puts "a" (no default, not
a database-generated primary key) in createArgs, but the generated
createArgs is empty — the entry removed for the defaulted auto primary key
"b" is the entry that had been appended for "a". -/
theorem claim_C2_counterexample :
    (model_derive mC2).toOption.map Artifacts.create_args ≠ some (specCreateArgs mC2) := by
  decide

/-- Claim C2, amended: updateArgs always contains exactly the
non-primary-key field names in declaration order; createArgs is built one
field at a time in declaration order by `createStep` — push the field's
name unless it is a database-generated primary key (auto or Serial), then,
if the field declares a default, blindly drop the last entry of the list,
which is the entry just pushed for this field except when the field pushed
nothing (a database-generated primary key with a default), in which case
the most recently appended earlier entry is removed; consequently,
provided no database-generated primary key declares a default, createArgs
contains exactly once each field that declares no default and is not a
database-generated primary key. -/
theorem claim_C2_arg_plans (m : Model) (a : Artifacts)
    (h : model_derive m = Except.ok a) :
    a.update_args = specUpdateArgs m ∧
    a.create_args = m.fields.foldl (fun c f => createStep f c) [] ∧
    ((∀ f ∈ m.fields, dbGenPkOf f = true → hasDefaultOf f = false) →
      a.create_args = specCreateArgs m) := by
  obtain ⟨cs, _, _, _, _, hu, hc, _, _⟩ := model_derive_char m a h
  refine ⟨?_, hc, ?_⟩
  · rw [hu, foldl_updateStep, specUpdateArgs, List.nil_append]
  · intro hnd
    rw [hc, foldl_createStep_of m.fields hnd, specCreateArgs, List.nil_append]

/-- The artifacts `model_derive` produces for the specification's `User`
example model. -/
def userArt : Artifacts :=
  { schema := "create table if not exists User (id serial primary key autoincrement not null, name varchar(50) unique not null, email varchar(255), created_at varchar(40) default current_timestamp not null);",
    pk := "id",
    create_args := ["name", "email"],
    update_args := ["name", "email", "created_at"],
    delete_stmt := "delete from User where id=?1;",
    delete_binds := ["id"] }

/-- The artifacts `model_derive` produces for `mC2`: the pop for the
defaulted auto primary key `b` has consumed the entry pushed for `a`. -/
def artC2 : Artifacts :=
  { schema := "create table if not exists T (a integer not null, b integer primary key autoincrement default 5 not null);",
    pk := "b",
    create_args := [],
    update_args := ["a"],
    delete_stmt := "delete from T where b=?1;",
    delete_binds := ["b"] }

/-- Witness for claim C2 at the `User` example — createArgs `[name, email]`
(id excluded as auto Serial primary key, created_at excluded by its
default), updateArgs `[name, email, created_at]` — and at the blind-pop
model `mC2`, whose updateArgs is still `[a]` while its createArgs fold
comes out empty. -/
theorem claim_C2_witness :
    model_derive userModel = Except.ok userArt ∧
    (∀ f ∈ userModel.fields, dbGenPkOf f = true → hasDefaultOf f = false) ∧
    userArt.update_args = specUpdateArgs userModel ∧
    userArt.create_args = specCreateArgs userModel ∧
    userArt.create_args = userModel.fields.foldl (fun c f => createStep f c) [] ∧
    model_derive mC2 = Except.ok artC2 ∧
    artC2.update_args = specUpdateArgs mC2 ∧
    artC2.create_args = mC2.fields.foldl (fun c f => createStep f c) [] :=
  ⟨rfl, by decide,
   (claim_C2_arg_plans userModel userArt rfl).1,
   (claim_C2_arg_plans userModel userArt rfl).2.2 (by decide),
   (claim_C2_arg_plans userModel userArt rfl).2.1,
   rfl,
   (claim_C2_arg_plans mC2 artC2 rfl).1,
   (claim_C2_arg_plans mC2 artC2 rfl).2.1⟩

/-- An Integer field `user_id` with `foreign_key = "users.id"`. -/
def fC3 : Field :=
  { name := "user_id", ty := RustType.pathNoArgs "Integer",
    attrs := [("foreign_key", Lit.str "users.id")] }

/-- One-field model with a foreign key, for the clause-text claim. -/
def mC3 : Model :=
  { name := "F", fields := [fC3] }

/-- The artifacts `model_derive` produces for `mC3`: the foreign-key
fragment prints with a space between the table and the parenthesized
column. -/
def artC3 : Artifacts :=
  { schema := "create table if not exists F (user_id integer not null references users (id));",
    pk := "",
    create_args := ["user_id"],
    update_args := ["user_id"],
    delete_stmt := "delete from F where =?1;",
    delete_binds := [""] }

/-- Claim C3, counterexample: on the foreign-key model `mC3` the emitted
clause reads `references users (id)` — the token printer separates the
interpolated table string literal from the parenthesized column group —
so the DDL differs from the claim's spacing `references users(id)`. -/
theorem claim_C3_counterexample :
    model_derive mC3 = Except.ok artC3 ∧
    artC3.schema ≠
      "create table if not exists F (user_id integer not null references users(id));" :=
  ⟨rfl, by decide⟩

/-- Claim C3, amended: the emitted DDL is
`create table if not exists <model_name> (<clauses>);` (with every double
quote deleted, see claim C10) where the clause list has exactly one column
clause per declared field in declaration order, joined by `, `, and each
clause — see `renderClause` — lists the field name, the base type,
`primary key` (plus `autoincrement` exactly when the auto flag is set),
`unique` when unique, the default expression when present, `not null`
unless the field is nullable, and the foreign-key fragment
`references <table> (<column>)` — with a space before the parenthesized
column — when a foreign key is set, in that order. -/
theorem claim_C3_ddl (m : Model) (a : Artifacts)
    (h : model_derive m = Except.ok a) :
    ∃ cs, clausesOf m.fields = Except.ok cs ∧
      cs.length = m.fields.length ∧
      a.schema = removeQuotes ("create table if not exists " ++ m.name ++
        " (" ++ String.intercalate ", " cs ++ ");") := by
  obtain ⟨cs, hcs, hlen, hsch, _⟩ := model_derive_char m a h
  exact ⟨cs, hcs, hlen, hsch⟩

/-- Witness for claim C3 at the `User` example model, whose four fields
produce exactly four clauses and the expected DDL text, and at the
foreign-key model `mC3`. -/
theorem claim_C3_witness :
    model_derive userModel = Except.ok userArt ∧
    (∃ cs, clausesOf userModel.fields = Except.ok cs ∧
      cs.length = userModel.fields.length ∧
      userArt.schema = removeQuotes ("create table if not exists " ++
        userModel.name ++ " (" ++ String.intercalate ", " cs ++ ");")) ∧
    model_derive mC3 = Except.ok artC3 ∧
    (∃ cs, clausesOf mC3.fields = Except.ok cs ∧
      cs.length = mC3.fields.length ∧
      artC3.schema = removeQuotes ("create table if not exists " ++
        mC3.name ++ " (" ++ String.intercalate ", " cs ++ ");")) :=
  ⟨rfl, claim_C3_ddl userModel userArt rfl, rfl, claim_C3_ddl mC3 artC3 rfl⟩

/-- A field typed `Option<Option<String>>` with no modifiers. -/
def fC4 : Field :=
  { name := "x",
    ty := RustType.pathArg "Option"
      (RustType.pathArg "Option" (RustType.pathNoArgs "String")),
    attrs := [] }

/-- One-field model whose field is typed `Option<Option<String>>`. -/
def mC4 : Model :=
  { name := "M4", fields := [fC4] }

/-- Claim C4, counterexample: the claim says generation fails with
UnsupportedFieldType on a doubly wrapped type such as
`Option<Option<String>>`, but `extract_inner_type` recurses through both
wrappers, yields the supported name "String", and generation succeeds. -/
theorem claim_C4_counterexample :
    model_derive mC4 =
      Except.ok
        { schema := "create table if not exists M4 (x varchar(255));",
          pk := "", create_args := ["x"], update_args := ["x"],
          delete_stmt := "delete from M4 where =?1;", delete_binds := [""] } ∧
    semTypeOf fC4 = some "String" :=
  ⟨rfl, rfl⟩

/-- A field with the unsupported type name `i32`. -/
def fC4bad : Field :=
  { name := "x", ty := RustType.pathNoArgs "i32", attrs := [] }

/-- One-field model with the unsupported type name `i32`. -/
def mC4bad : Model :=
  { name := "B", fields := [fC4bad] }

/-- Claim C4, amended: the Extractor unwraps `Option` wrappers recursively,
not exactly one level — `Option<T>` yields whatever `T` yields, at any
nesting depth; a non-wrapped path type yields its own last-segment name;
nullability is decided by the outermost wrapper alone; and generation fails
when the innermost name so obtained is not one of the supported semantic
types (so `Option<Option<String>>` succeeds as a nullable String field). -/
theorem claim_C4_extractor :
    (∀ t : RustType,
      extract_inner_type (RustType.pathArg "Option" t) = extract_inner_type t) ∧
    (∀ (seg : String) (t : RustType), seg ≠ "Option" →
      extract_inner_type (RustType.pathArg seg t) = some seg) ∧
    (∀ seg : String, extract_inner_type (RustType.pathNoArgs seg) = some seg) ∧
    (∀ (seg : String) (t : RustType),
      isNullable (RustType.pathArg seg t) = (seg == "Option") ∧
      isNullable (RustType.pathNoArgs seg) = (seg == "Option")) ∧
    (∀ (m : Model) (f : Field) (t : String), f ∈ m.fields →
      semTypeOf f = some t → t ∉ supportedTypes →
      ∃ e, model_derive m = Except.error e) := by
  refine ⟨?_, ?_, ?_, ?_, ?_⟩
  · intro t; simp [extract_inner_type]
  · intro seg t hseg; simp [extract_inner_type, hseg]
  · intro seg; simp [extract_inner_type]
  · intro seg t; exact ⟨rfl, rfl⟩
  · intro m f t hmem hE hT
    obtain ⟨e, he⟩ := fieldData_error_of_unsupported f t hE hT
    exact model_derive_error_of_field m f e hmem he

/-- Witness for claim C4: the recursive unwrap on `Option<Option<String>>`,
the non-Option case at "Foo", the nullability of `Option<String>`, and the
failing generation for the unsupported name `i32`. -/
theorem claim_C4_witness :
    extract_inner_type
        (RustType.pathArg "Option" (RustType.pathArg "Option" (RustType.pathNoArgs "String"))) =
      extract_inner_type (RustType.pathArg "Option" (RustType.pathNoArgs "String")) ∧
    extract_inner_type (RustType.pathArg "Foo" (RustType.pathNoArgs "Bar")) = some "Foo" ∧
    isNullable (RustType.pathArg "Option" (RustType.pathNoArgs "String")) = ("Option" == "Option") ∧
    (∃ e, model_derive mC4bad = Except.error e) :=
  ⟨claim_C4_extractor.1 (RustType.pathArg "Option" (RustType.pathNoArgs "String")),
   claim_C4_extractor.2.1 "Foo" (RustType.pathNoArgs "Bar") (by decide),
   (claim_C4_extractor.2.2.2.1 "Option" (RustType.pathNoArgs "String")).1,
   claim_C4_extractor.2.2.2.2 mC4bad fC4bad "i32"
     (by decide) (by decide) (by decide)⟩

/-- An Integer field named `user_id` carrying `foreign_key = s`. -/
def fkField (s : String) : Field :=
  { name := "user_id", ty := RustType.pathNoArgs "Integer",
    attrs := [("foreign_key", Lit.str s)] }

/-- One-field model exercising the foreign-key modifier. -/
def fkModel (s : String) : Model :=
  { name := "M", fields := [fkField s] }

/-- The rendered foreign-key fragment: the token printer keeps a space
between the interpolated table string literal and the parenthesized column
group, so after the global double-quote deletion the clause carries
`references t (c)`. -/
def fkFragment (t c : String) : String :=
  "references " ++ strLit t ++ " (" ++ strLit c ++ ")"

/-- Claim C5, counterexample: `foreign_key = "users."` has an empty column
part, which the claim says must fail generation; the code only checks that
the split yields two parts, so generation succeeds and the clause contains
`references users ()`. -/
theorem claim_C5_counterexample :
    model_derive (fkModel "users.") =
      Except.ok
        { schema := "create table if not exists M (user_id integer not null references users ());",
          pk := "", create_args := ["user_id"], update_args := ["user_id"],
          delete_stmt := "delete from M where =?1;", delete_binds := [""] } :=
  rfl

/-- Claim C5, amended: a foreign_key modifier succeeds exactly when its
string splits on `.` into exactly two parts — the parts may be empty — in
which case the field's clause carries the `references <table> (<column>)`
fragment (the token printer keeps a space before the parenthesized
column); a split of any other length (no dot, or more than one dot) fails
generation with the invalid-foreign-key panic. -/
theorem claim_C5_foreign_key (s : String) :
    (∀ t c, splitDot s = [t, c] →
      (∀ (ft : String) (cfg : FieldConfig),
        applyAttr ft cfg ("foreign_key", Lit.str s) =
          Except.ok { cfg with foreign_key := some (fkFragment t c) }) ∧
      ∃ a, model_derive (fkModel s) = Except.ok a) ∧
    ((splitDot s).length ≠ 2 →
      model_derive (fkModel s) = Except.error GenError.invalidForeignKey) := by
  constructor
  · intro t c hsp
    constructor
    · intro ft cfg
      simp [applyAttr, hsp, fkFragment]
    · cases hmd : model_derive (fkModel s) with
      | ok a => exact ⟨a, rfl⟩
      | error e =>
          simp [model_derive, runFields, processField, fieldData, applyAttrs,
            applyAttr, baseType, extract_inner_type, initCfg, fkModel, fkField,
            hsp] at hmd
  · intro hlen
    rcases hsp : splitDot s with _ | ⟨x, _ | ⟨y, _ | ⟨z, r⟩⟩⟩
    · simp [model_derive, runFields, processField, fieldData, applyAttrs,
        applyAttr, extract_inner_type, initCfg, fkModel, fkField, hsp]
    · simp [model_derive, runFields, processField, fieldData, applyAttrs,
        applyAttr, extract_inner_type, initCfg, fkModel, fkField, hsp]
    · rw [hsp] at hlen
      simp at hlen
    · simp [model_derive, runFields, processField, fieldData, applyAttrs,
        applyAttr, extract_inner_type, initCfg, fkModel, fkField, hsp]

/-- Witness for claim C5: `foreign_key = "users.id"` renders
`references users (id)` and generation succeeds, while
`foreign_key = "users"` (no dot) fails generation. -/
theorem claim_C5_witness :
    ((∀ (ft : String) (cfg : FieldConfig),
        applyAttr ft cfg ("foreign_key", Lit.str "users.id") =
          Except.ok { cfg with foreign_key := some (fkFragment "users" "id") }) ∧
      ∃ a, model_derive (fkModel "users.id") = Except.ok a) ∧
    model_derive (fkModel "users") = Except.error GenError.invalidForeignKey :=
  ⟨(claim_C5_foreign_key "users.id").1 "users" "id" (by decide),
   (claim_C5_foreign_key "users").2 (by decide)⟩

/-- One-field model with a `default = "now"` modifier on a field of the
given type name. -/
def nowModel (seg : String) : Model :=
  { name := "M",
    fields := [ { name := "d", ty := RustType.pathNoArgs seg,
                  attrs := [("default", Lit.str "now")] } ] }

/-- A field configuration after a successful `default` modifier: the flag
set and the given rendered expression. -/
def withDefault (cfg : FieldConfig) (v : String) : FieldConfig :=
  { cfg with is_default := true, default := some v }

/-- Claim C6: the default expression renders a string literal other than
"now" single-quoted (inside a double-quoted token whose quotes the final
schema pass deletes), boolean true as `1` and false as `0`, an integer as
its digits; the literal "now" renders `default current_date` on a Date
field and `default current_timestamp` on a DateTime field, and generation
fails with the invalid-default panic for "now" on every other type. -/
theorem claim_C6_default (ft : String) (cfg : FieldConfig) :
    (∀ s, s ≠ "now" → applyAttr ft cfg ("default", Lit.str s) =
      Except.ok (withDefault cfg ("default " ++ strLit ("'" ++ s ++ "'")))) ∧
    (applyAttr ft cfg ("default", Lit.bool true) =
      Except.ok (withDefault cfg "default 1")) ∧
    (applyAttr ft cfg ("default", Lit.bool false) =
      Except.ok (withDefault cfg "default 0")) ∧
    (∀ n : Nat, applyAttr ft cfg ("default", Lit.int n) =
      Except.ok (withDefault cfg ("default " ++ toString n))) ∧
    (ft = "Date" → applyAttr ft cfg ("default", Lit.str "now") =
      Except.ok (withDefault cfg "default current_date")) ∧
    (ft = "DateTime" → applyAttr ft cfg ("default", Lit.str "now") =
      Except.ok (withDefault cfg "default current_timestamp")) ∧
    (ft ≠ "Date" → ft ≠ "DateTime" →
      applyAttr ft cfg ("default", Lit.str "now") =
        Except.error GenError.invalidDefaultForType) ∧
    (∀ seg, seg ≠ "Date" → seg ≠ "DateTime" →
      model_derive (nowModel seg) = Except.error GenError.invalidDefaultForType) := by
  refine ⟨?_, ?_, ?_, ?_, ?_, ?_, ?_, ?_⟩
  · intro s hs; simp [applyAttr, withDefault, hs]
  · simp [applyAttr, withDefault]
  · simp [applyAttr, withDefault]
  · intro n; simp [applyAttr, withDefault]
  · intro hd; simp [applyAttr, withDefault, hd]
  · intro hd; simp [applyAttr, withDefault, hd]
  · intro h1 h2; simp [applyAttr, h1, h2]
  · intro seg h1 h2
    simp [model_derive, runFields, processField, fieldData, applyAttrs,
      applyAttr, extract_inner_type, initCfg, nowModel, h1, h2]

/-- Witness for claim C6 at concrete inputs: a plain string default, both
booleans, an integer, "now" on Date and DateTime, and the failing "now" on
an Integer field. -/
theorem claim_C6_witness :
    (applyAttr "String" initCfg ("default", Lit.str "draft") =
      Except.ok (withDefault initCfg ("default " ++ strLit ("'" ++ "draft" ++ "'")))) ∧
    (applyAttr "Boolean" initCfg ("default", Lit.bool true) =
      Except.ok (withDefault initCfg "default 1")) ∧
    (applyAttr "Integer" initCfg ("default", Lit.int 7) =
      Except.ok (withDefault initCfg ("default " ++ toString 7))) ∧
    (applyAttr "Date" initCfg ("default", Lit.str "now") =
      Except.ok (withDefault initCfg "default current_date")) ∧
    (applyAttr "DateTime" initCfg ("default", Lit.str "now") =
      Except.ok (withDefault initCfg "default current_timestamp")) ∧
    model_derive (nowModel "Integer") = Except.error GenError.invalidDefaultForType :=
  ⟨(claim_C6_default "String" initCfg).1 "draft" (by decide),
   (claim_C6_default "Boolean" initCfg).2.1,
   (claim_C6_default "Integer" initCfg).2.2.2.1 7,
   (claim_C6_default "Date" initCfg).2.2.2.2.1 rfl,
   (claim_C6_default "DateTime" initCfg).2.2.2.2.2.1 rfl,
   (claim_C6_default "Integer" initCfg).2.2.2.2.2.2.2 "Integer" (by decide) (by decide)⟩

/-- Claim C7: the column base type is a pure function of the semantic type
name plus the size modifier for String — Serial to `serial`, Integer to
`integer`, String to `varchar(size)` or `varchar(255)` without a size,
Float to `float`, Text to `text`, Date to `varchar(10)`, Boolean to
`integer`, DateTime to `varchar(40)` — and any other name fails generation
with the unsupported-type panic. -/
theorem claim_C7_base_types :
    (∀ sz, baseType "Serial" sz = Except.ok "serial") ∧
    (∀ sz, baseType "Integer" sz = Except.ok "integer") ∧
    (∀ n : Nat, baseType "String" (some n) =
      Except.ok ("varchar(" ++ toString n ++ ")")) ∧
    (baseType "String" none = Except.ok "varchar(255)") ∧
    (∀ sz, baseType "Float" sz = Except.ok "float") ∧
    (∀ sz, baseType "Text" sz = Except.ok "text") ∧
    (∀ sz, baseType "Date" sz = Except.ok "varchar(10)") ∧
    (∀ sz, baseType "Boolean" sz = Except.ok "integer") ∧
    (∀ sz, baseType "DateTime" sz = Except.ok "varchar(40)") ∧
    (∀ t sz, t ∉ supportedTypes →
      baseType t sz = Except.error GenError.unsupportedFieldType) := by
  refine ⟨?_, ?_, ?_, ?_, ?_, ?_, ?_, ?_, ?_, ?_⟩
  · intro sz; simp [baseType]
  · intro sz; simp [baseType]
  · intro n; simp [baseType]
  · simp [baseType]
  · intro sz; simp [baseType]
  · intro sz; simp [baseType]
  · intro sz; simp [baseType]
  · intro sz; simp [baseType]
  · intro sz; simp [baseType]
  · intro t sz h; exact baseType_unsupported t h sz

/-- Witness for claim C7 at concrete inputs: both String variants and the
unsupported name `i64`. -/
theorem claim_C7_witness :
    baseType "String" (some 50) = Except.ok ("varchar(" ++ toString 50 ++ ")") ∧
    baseType "String" none = Except.ok "varchar(255)" ∧
    baseType "Serial" none = Except.ok "serial" ∧
    baseType "i64" none = Except.error GenError.unsupportedFieldType :=
  ⟨claim_C7_base_types.2.2.1 50,
   claim_C7_base_types.2.2.2.1,
   claim_C7_base_types.1 none,
   claim_C7_base_types.2.2.2.2.2.2.2.2.2 "i64" none (by decide)⟩

/-- Claim C8: for a model with a resolved (non-empty) primary key, the
emitted delete statement is exactly
`delete from <model_name> where <primary_key_field>=?1;` and the generated
delete binds exactly one parameter, the instance's primary-key value. -/
theorem claim_C8_delete (m : Model) (a : Artifacts)
    (h : model_derive m = Except.ok a) (hpk : a.pk ≠ "") :
    a.delete_stmt = "delete from " ++ m.name ++ " where " ++ a.pk ++ "=?1;" ∧
    a.delete_binds = [a.pk] ∧ a.delete_binds.length = 1 := by
  obtain ⟨cs, _, _, _, _, _, _, hdel, hbind⟩ := model_derive_char m a h
  exact ⟨hdel, hbind, by rw [hbind]; rfl⟩

/-- Witness for claim C8 at the `User` example model: the delete statement
is `delete from User where id=?1;` with the single bind `id`. -/
theorem claim_C8_witness :
    model_derive userModel = Except.ok userArt ∧
    (userArt.delete_stmt =
        "delete from " ++ userModel.name ++ " where " ++ userArt.pk ++ "=?1;" ∧
      userArt.delete_binds = [userArt.pk] ∧ userArt.delete_binds.length = 1) :=
  ⟨rfl, claim_C8_delete userModel userArt rfl (by decide)⟩

/-- Claim C9: generation is deterministic — `model_derive` is a pure
function of the declaration, so two runs on the identical input that both
succeed yield identical artifacts (schema text, primary-key name, argument
lists, delete statement and binds), with no hidden state. -/
theorem claim_C9_deterministic (m : Model) (a1 a2 : Artifacts)
    (h1 : model_derive m = Except.ok a1) (h2 : model_derive m = Except.ok a2) :
    a1 = a2 := by
  rw [h1] at h2
  exact (Except.ok.injEq a1 a2 ▸ h2 : a1 = a2)

/-- Witness for claim C9 at the `User` example model. -/
theorem claim_C9_witness :
    model_derive userModel = Except.ok userArt ∧ userArt = userArt :=
  ⟨rfl, claim_C9_deterministic userModel userArt userArt rfl rfl⟩

/-- Claim C10: the emitted DDL string contains no double-quote character —
the assembled statement text goes through `replace('"', "")`, so every
double quote, including any inside a string default value, is silently
deleted. -/
theorem claim_C10_no_double_quote (m : Model) (a : Artifacts)
    (h : model_derive m = Except.ok a) :
    '"' ∉ a.schema.data := by
  obtain ⟨cs, _, _, hsch, _⟩ := model_derive_char m a h
  rw [hsch, removeQuotes]
  intro hmem
  have := List.mem_filter.mp hmem
  simp at this

/-- One-field model whose String field has the default value `a"b`, a
string containing a double quote. -/
def mC10 : Model :=
  { name := "Q",
    fields := [ { name := "s", ty := RustType.pathNoArgs "String",
                  attrs := [("default", Lit.str "a\"b")] } ] }

/-- The artifacts for `mC10`: the escaped literal `"'a\"b'"` loses all its
double quotes in the final schema text. -/
def artC10 : Artifacts :=
  { schema := "create table if not exists Q (s varchar(255) default 'a\\b' not null);",
    pk := "",
    create_args := [],
    update_args := ["s"],
    delete_stmt := "delete from Q where =?1;",
    delete_binds := [""] }

/-- Witness for claim C10 at `mC10`: the double quote of the default value
does not survive into the schema. -/
theorem claim_C10_witness :
    model_derive mC10 = Except.ok artC10 ∧ '"' ∉ artC10.schema.data :=
  ⟨rfl, claim_C10_no_double_quote mC10 artC10 rfl⟩

end RusqlMacro
